import Mathlib

/-!
Verification development for the PaperPulse daily-report pipeline.

The definitions below are a shallow embedding of the repository's Python
sources:
  * `crawler/paper.py`   (HuggingFacePaperScraper, ArxivScraper, LinkConverter)
  * `crawler/gh_trending.py` (GithubTrendingScraper)
  * `summary/ai.py`      (AISummarizer)
  * `mail/generate_news_letter.py` (NewsLetterGenerator, marker splice logic)
  * `main.py`            (AIReporter)

External effects (network fetches, language-model completions, the wall
clock) are passed in as explicit oracle arguments; the per-day JSON file is
modelled as an explicit file state threaded through the functions.
-/

/-- JSON-like values as stored in the per-day materials file. -/
inductive JValue where
  | jstr (s : String) : JValue
  | jarr (items : List JValue) : JValue
  | jobj (fields : List (String × JValue)) : JValue

/-- A JSON object / Python dict: association list with unique keys, in
insertion order. -/
abbrev Doc := List (String × JValue)

/-- State of a per-day JSON file on disk: `none` = no file exists,
`some none` = a file exists but its content is not valid JSON,
`some (some d)` = a file with the valid JSON object `d`. -/
abbrev FileState := Option (Option Doc)

/-- Dict lookup (`d[k]` / `d.get(k)`): first binding of the key, if any. -/
def getKey : Doc → String → Option JValue
  | [], _ => none
  | (k2, v2) :: t, k => if k2 = k then some v2 else getKey t k

/-- Dict update (`d[k] = v`): replace the binding in place if the key is
present (keys are unique in a dict), otherwise append it at the end. -/
def setKey : Doc → String → JValue → Doc
  | [], k, v => [(k, v)]
  | (k2, v2) :: t, k, v => if k2 = k then (k, v) :: t else (k2, v2) :: setKey t k v

/-- Python `d.get(k, dflt)` on a document. -/
def docGetD (d : Doc) (k : String) (dflt : JValue) : JValue :=
  match getKey d k with
  | some v => v
  | none => dflt

/-- Python `o.get(k, dflt)` where `o` is a JSON value expected to be an
object (the code only calls `.get` on dicts). -/
def getKeyD (o : JValue) (k : String) (dflt : JValue) : JValue :=
  match o with
  | .jobj fields => docGetD fields k dflt
  | _ => dflt

/-- Read a JSON value as a string (the stored values the code reads this
way are always strings). -/
def asStr : JValue → String
  | .jstr s => s
  | _ => ""

/-- Read a JSON value as an array (the stored values the code iterates
over are always arrays). -/
def asArr : JValue → List JValue
  | .jarr items => items
  | _ => []

/-- The read step shared by both writers (`gh_trending.py:_save_to_json`
lines 114-122, `paper.py:_save` lines 180-185): load the existing JSON
file, falling back to an empty dict `{}` when the file is missing or its
content fails to parse. -/
def loadOrEmpty : FileState → Doc
  | some (some d) => d
  | _ => []

/-- The read-merge-write cycle both writers perform: read the whole
document (empty on missing/corrupt file), set one named section, write the
whole document back. -/
def write_section (file : FileState) (name : String) (v : JValue) : FileState :=
  some (some (setKey (loadOrEmpty file) name v))

/-- `GithubTrendingScraper._save_to_json` (gh_trending.py lines 102-132):
read-merge-write of the `gh_trendings` section, for any `data` value. -/
def save_to_json (file : FileState) (data : List JValue) : FileState :=
  write_section file "gh_trendings" (.jarr data)

/-- `HuggingFacePaperScraper._save` (paper.py lines 169-194): when
`new_data` is empty the function prints "No data" and returns without
touching the file; otherwise it performs the read-merge-write of the
`huggingface_papers` section. (The `datetime.now()` re-derivation of the
storage key at line 176 is modelled separately by `hf_save_full`.) -/
def hf_save (file : FileState) (new_data : List JValue) : FileState :=
  if new_data.isEmpty then file
  else write_section file "huggingface_papers" (.jarr new_data)

/-- The exceptions `AISummarizer._load_data` can raise. -/
inductive LoadError where
  | fileNotFound : LoadError
  | valueError : LoadError

/-- `AISummarizer._load_data` (ai.py lines 35-46): raises
`FileNotFoundError` when no file exists at the path, raises `ValueError`
when the file content is not valid JSON, and otherwise returns the parsed
document. -/
def load_data : FileState → Except LoadError Doc
  | none => .error .fileNotFound
  | some none => .error .valueError
  | some (some d) => .ok d

/- ------------------------------------------------------------------ -/
/- String helpers mirroring the Python string operations used          -/
/- ------------------------------------------------------------------ -/

/-- Does the list start with the given pattern? -/
def listStartsWith : List Char → List Char → Bool
  | _, [] => true
  | [], _ :: _ => false
  | c :: t, p :: q => c == p && listStartsWith t q

/-- Fuel-indexed worker for `pyReplace`; each step consumes at least one
character of the input, so fuel = input length suffices. -/
def replaceAux : Nat → List Char → List Char → List Char → List Char
  | 0, s, _, _ => s
  | n + 1, s, pat, rep =>
    match s with
    | [] => []
    | c :: t =>
      if listStartsWith s pat then rep ++ replaceAux n (s.drop pat.length) pat rep
      else c :: replaceAux n t pat rep

/-- Python `s.replace(pat, rep)`: replace every non-overlapping occurrence,
scanning left to right (callers never pass an empty pattern). -/
def pyReplace (s pat rep : String) : String :=
  ⟨replaceAux s.toList.length s.toList pat.toList rep.toList⟩

/-- Python `s.replace("\n", "")`, as applied to titles and abstracts in
`paper.py`. -/
def stripNL (s : String) : String := pyReplace s "\n" ""

/-- Python `s.strip()`: drop whitespace from both ends. -/
def pyStrip (s : String) : String :=
  ⟨((s.toList.dropWhile Char.isWhitespace).reverse.dropWhile
      Char.isWhitespace).reverse⟩

/-- Worker for `lastSeg`: the text after the last separator seen so far. -/
def lastSegAux : List Char → List Char → List Char
  | acc, [] => acc
  | acc, c :: t => if c = '/' then lastSegAux [] t else lastSegAux (acc ++ [c]) t

/-- Python `s.split("/")[-1]`: the substring after the last `/` (the whole
string when there is no `/`). -/
def lastSeg (s : String) : String := ⟨lastSegAux [] s.toList⟩

/-- Python `"sep".join(xs)`. -/
def pyJoin (sep : String) (xs : List String) : String :=
  String.intercalate sep xs

/- ------------------------------------------------------------------ -/
/- summary/ai.py — AISummarizer                                        -/
/- ------------------------------------------------------------------ -/

/-- Scan to the first `>` on the same line; `.` in the pattern
`</?p.*?>` does not match a newline, and the lazy `.*?` stops at the first
`>`. Returns the rest of the input after the `>`. -/
def scanToGt : List Char → Option (List Char)
  | [] => none
  | c :: t => if c = '>' then some t else if c = '\n' then none else scanToGt t

/-- Match the `</?p.*?>` alternative of the first cleanup regex at the
head of the input: `<`, an optional `/`, a `p`, then lazily anything up to
the next `>`. -/
def matchPTag (s : List Char) : Option (List Char) :=
  match s with
  | '<' :: rest =>
    (match (match rest with | '/' :: r2 => r2 | _ => rest) with
     | 'p' :: r3 => scanToGt r3
     | _ => none)
  | _ => none

/-- Drop any further newlines (the greedy tail of `\n{2,}`). -/
def skipNls : List Char → List Char
  | '\n' :: t => skipNls t
  | s => s

/-- Match the `\n{2,}` alternative of the first cleanup regex at the head
of the input: two newlines, then greedily any further newlines. -/
def matchNls (s : List Char) : Option (List Char) :=
  match s with
  | '\n' :: '\n' :: r => some (skipNls r)
  | _ => none

/-- First cleanup pass, `re.sub(r"</?p.*?>|\n{2,}", "\n", text)`: walk the
text left to right, replacing each match of either alternative with a
single newline. Fuel-indexed; every step consumes at least one character. -/
def pass1Aux : Nat → List Char → List Char
  | 0, s => s
  | _ + 1, [] => []
  | n + 1, c :: t =>
    match matchPTag (c :: t) with
    | some rest => '\n' :: pass1Aux n rest
    | none =>
      match matchNls (c :: t) with
      | some rest => '\n' :: pass1Aux n rest
      | none => c :: pass1Aux n t

/-- Scan to the first `>` (any character, newlines included, may appear in
`[^>]*`). Returns the rest after the `>`. -/
def scanTagEnd : List Char → Option (List Char)
  | [] => none
  | c :: t => if c = '>' then some t else scanTagEnd t

/-- Second cleanup pass, `re.sub(r"<[^>]*>", "", ...)`: delete every
`<...>` span ending at the first following `>`. -/
def pass2Aux : Nat → List Char → List Char
  | 0, s => s
  | _ + 1, [] => []
  | n + 1, c :: t =>
    if c = '<' then
      match scanTagEnd t with
      | some rest => pass2Aux n rest
      | none => c :: pass2Aux n t
    else c :: pass2Aux n t

/-- The two cleanup substitutions at the start of
`AISummarizer._get_summary_from_anthropic` (ai.py lines 57-58). -/
def clean_text (s : String) : String :=
  let l1 := pass1Aux s.toList.length s.toList
  ⟨pass2Aux l1.length l1⟩

/-- The fixed L2 sentinel returned when a summarization call fails. -/
def summaryFailed : String := "Summary generation failed."

/-- Leading piece of `L2_USER_PROMPT_TEMPLATE` (before `length_limit`). -/
def L2_USER_PROMPT_PRE : String := "请使用中文总结以下内容，字数限制在 "

/-- Middle piece of `L2_USER_PROMPT_TEMPLATE` (between `length_limit` and
`text`). -/
def L2_USER_PROMPT_MID : String :=
  " 字以内，并且仅输出最终结果。输出内容不允许包含任何Markdown小标题、加粗等标记，请以自然段形式呈现，并且要保证行文的逻辑性是顺畅的，不可以只是做翻译，每一个自然段的内容不要太短也不要太长。\n\n---\n\n"

/-- `L2_USER_PROMPT_TEMPLATE.format(length_limit=..., text=...)`
(ai.py lines 60-63): splice the arguments into the fixed template. -/
def mk_L2_user_prompt (length_limit : Nat) (text : String) : String :=
  L2_USER_PROMPT_PRE ++ toString length_limit ++ L2_USER_PROMPT_MID ++ text

/-- `AISummarizer._get_summary_from_anthropic` (ai.py lines 48-80): clean
the text, build the user prompt (default length limit 400), issue one
completion request, and return its content — or the fixed sentinel string
when the call raises. The completion API is the oracle `api`, mapping the
user prompt to `some content` or to `none` for a raised exception. -/
def get_summary_from_anthropic (api : String → Option String)
    (text : String) : String :=
  let cleaned := clean_text text
  let user_prompt := mk_L2_user_prompt 400 cleaned
  match api user_prompt with
  | some answer => answer
  | none => summaryFailed

/-- One iteration of the paper loop of
`AISummarizer.generate_full_report` (ai.py lines 93-97). -/
def paper_report_entry (api : String → Option String) (p : JValue) : String :=
  let title := pyStrip (asStr (getKeyD p "Title" (.jstr "Untitled")))
  let summary_text := asStr (getKeyD p "Summary" (.jstr "No summary information."))
  title ++ "\n\n" ++ get_summary_from_anthropic api summary_text

/-- One iteration of the repo loop of
`AISummarizer.generate_full_report` (ai.py lines 100-105). -/
def repo_report_entry (api : String → Option String) (r : JValue) : String :=
  let repo_url := pyStrip (asStr (getKeyD r "url" (.jstr "No URL")))
  let full_text := "Project Description: "
    ++ asStr (getKeyD r "description" (.jstr ""))
    ++ "\n\nREADME Summary: "
    ++ asStr (getKeyD r "readme_summary" (.jstr ""))
  repo_url ++ "\n\n" ++ get_summary_from_anthropic api full_text

/-- `AISummarizer.generate_full_report` (ai.py lines 82-107): append one
entry per paper, then one entry per repo, into the `reports` list. -/
def generate_full_report (api : String → Option String)
    (papers repos : List JValue) : List String :=
  let reports := papers.foldl (fun acc p => acc ++ [paper_report_entry api p]) []
  repos.foldl (fun acc r => acc ++ [repo_report_entry api r]) reports

/-- Leading piece of `L1_USER_PROMPT_TEMPLATE` (before `text`). -/
def L1_USER_PROMPT_PRE : String :=
  "接下来我会提供一些paper和GitHub仓库的摘要，摘要内容为：\n\n"

/-- Trailing piece of `L1_USER_PROMPT_TEMPLATE` (after `text`). -/
def L1_USER_PROMPT_POST : String :=
  "\n\n请你根据这些摘要，生成一个精简版的总结。要求每个paper或仓库包含：仓库的名称或者Paper的名称，并且在这之后用3到4句话凝练地概括其核心内容。你只需要输出最终的生成结果，并且该结果必须是一个Markdown无序列表，只允许有一层缩进，每个列表元素代表一个paper或仓库的介绍。输出中不允许包含任何Markdown小标题或加粗等标记。"

/-- `L1_USER_PROMPT_TEMPLATE.format(text=...)` (ai.py line 114). -/
def mk_L1_user_prompt (text : String) : String :=
  L1_USER_PROMPT_PRE ++ text ++ L1_USER_PROMPT_POST

/-- `AISummarizer.generate_L1_report` (ai.py lines 109-129): join the L2
entries with blank lines, build the single rollup prompt, issue one
completion request, and keep its content — or the fixed sentinel when the
call raises. -/
def generate_L1_report (api : String → Option String)
    (final_report : List String) : String :=
  let L2_text := pyJoin "\n\n" final_report
  let user_prompt := mk_L1_user_prompt L2_text
  match api user_prompt with
  | some content => content
  | none => summaryFailed

/-- `AISummarizer.save_L2_summary` (ai.py lines 131-141): re-read the
document and set its `L2 Summary` key. -/
def save_L2_summary (d : Doc) (final_report : List String) : Doc :=
  setKey d "L2 Summary" (.jarr (final_report.map .jstr))

/-- `AISummarizer.save_L1_summary` (ai.py lines 143-153): re-read the
document and set its `L1 Summary` key. -/
def save_L1_summary (d : Doc) (l1 : String) : Doc :=
  setKey d "L1 Summary" (.jstr l1)

/-- `AISummarizer.run` (ai.py lines 155-169): load the data (the
`FileNotFoundError` / `ValueError` raised by `_load_data` is caught here,
leaving the file untouched), generate and save the L2 entries, then
generate and save the L1 rollup. `api` and `apiL1` are the completion
oracles for the two tiers. -/
def ai_run (api apiL1 : String → Option String) (file : FileState) : FileState :=
  match file with
  | none => none
  | some none => some none
  | some (some d) =>
    let papers := asArr (docGetD d "huggingface_papers" (.jarr []))
    let repos := asArr (docGetD d "gh_trendings" (.jarr []))
    let final_report := generate_full_report api papers repos
    let d2 := save_L2_summary d final_report
    let l1 := generate_L1_report apiL1 final_report
    some (some (save_L1_summary d2 l1))

/- ------------------------------------------------------------------ -/
/- crawler/paper.py — LinkConverter, ArxivScraper, HuggingFacePaperScraper -/
/- ------------------------------------------------------------------ -/

/-- The mirror base URL used by the paper scraper. -/
def HF_MIRROR_URL : String := "https://hf-mirror.com"

/-- `LinkConverter.to_arxiv` (paper.py lines 18-31): the arXiv ID is the
final path segment of the Hugging Face link. -/
def to_arxiv (hf_link : String) : String :=
  "https://arxiv.org/abs/" ++ lastSeg hf_link

/-- `ArxivScraper.get_paper_details` (paper.py lines 39-64): look the ID
up through the metadata API oracle; on a raised exception or an empty
result list, substitute the sentinel pair `("N/A", "N/A")`. The oracle
returns `some (summary, pdf_url)` on success and `none` on
failure-or-empty. -/
def get_paper_details (details : String → Option (String × String))
    (arxiv_id : String) : String × String :=
  match details arxiv_id with
  | some d => d
  | none => ("N/A", "N/A")

/-- One parsed `h3` container of the Hugging Face listing page: the paper
title (as extracted by `get_text(strip=True).replace("\n", "")`) and the
relative `href` of its title link. -/
structure HfContainer where
  title : String
  href : String

/-- The arXiv ID derived from a container, as computed inside the loop of
`_parse_papers` (paper.py lines 144-151). -/
def container_arxiv_id (c : HfContainer) : String :=
  lastSeg (to_arxiv (HF_MIRROR_URL ++ c.href))

/-- One iteration of the loop of `HuggingFacePaperScraper._parse_papers`
(paper.py lines 138-165) on a well-formed container: build the mirror
link, convert it to an arXiv link, extract the ID, fetch details (with
`N/A` sentinels on failure), and assemble the paper record. -/
def parse_container (details : String → Option (String × String))
    (c : HfContainer) : JValue :=
  let hf_link := HF_MIRROR_URL ++ c.href
  let arxiv_link := to_arxiv hf_link
  let arxiv_id := lastSeg arxiv_link
  let ad := get_paper_details details arxiv_id
  JValue.jobj [
    ("Title", .jstr (stripNL c.title)),
    ("HF_Link", .jstr hf_link),
    ("Arxiv_Link", .jstr arxiv_link),
    ("Summary", .jstr (stripNL ad.1)),
    ("PDF_Link", .jstr ad.2)]

/-- `HuggingFacePaperScraper._parse_papers` (paper.py lines 115-167) over
the list of well-formed containers found on the page. -/
def parse_papers (details : String → Option (String × String))
    (containers : List HfContainer) : List JValue :=
  containers.map (parse_container details)

/- ------------------------------------------------------------------ -/
/- main.py — AIReporter._crawling, with gh_trending.py's run            -/
/- ------------------------------------------------------------------ -/

/-- `HuggingFacePaperScraper.run` as wrapped by `_crawling` (main.py
lines 60-64): a failed page fetch or a raised exception leaves the file
untouched; a successful fetch parses the papers and hands them to
`_save` (which itself skips empty lists). `fetched = none` covers the
failure cases, `fetched = some papers` the parsed result. -/
def paper_run (file : FileState) (fetched : Option (List JValue)) : FileState :=
  match fetched with
  | none => file
  | some papers => hf_save file papers

/-- `GithubTrendingScraper.run` (gh_trending.py lines 134-142): when
`_get_trending_repos` returns `None` (failure) or an empty list, skip the
save; otherwise save the repos. -/
def gh_run (file : FileState) (fetched : Option (List JValue)) : FileState :=
  match fetched with
  | none => file
  | some repos => if repos.isEmpty then file else save_to_json file repos

/-- `AIReporter._crawling` (main.py lines 54-79): run the paper scraper
(exceptions caught), then submit the repo scraper to a one-worker
`ThreadPoolExecutor` and wait up to 600 seconds. The document effect is
independent of whether the wait timed out: the `with` block's exit calls
`shutdown(wait=True)`, so `_crawling` blocks until the submitted
`gh_scraper.run` finishes even after `future.result` has raised
`TimeoutError`, and that still-running worker performs its own
`_save_to_json` when its fetch succeeds. The `timed_out` flag therefore
only changes what is printed. -/
def crawling (file : FileState) (papers_fetch repos_fetch : Option (List JValue))
    (timed_out : Bool) : FileState :=
  gh_run (paper_run file papers_fetch) repos_fetch

/-- A concrete paper record, for evaluating the pipeline. -/
def samplePaper : JValue :=
  JValue.jobj [("Title", .jstr "A"), ("Summary", .jstr "abs A"),
    ("PDF_Link", .jstr "x")]

/-- A concrete repo record, for evaluating the pipeline. -/
def sampleRepo : JValue :=
  JValue.jobj [("url", .jstr "https://github.com/o/r"),
    ("language", .jstr "Python"), ("description", .jstr "d"),
    ("readme_summary", .jstr "r")]

/- ------------------------------------------------------------------ -/
/- Dates: datetime.now(), timedelta(days=1), strftime                  -/
/- ------------------------------------------------------------------ -/

/-- Gregorian leap-year rule, as implemented by `datetime.date`. -/
def is_leap_year (y : Nat) : Bool :=
  (y % 4 == 0 && y % 100 != 0) || y % 400 == 0

/-- Days in a month of the proleptic Gregorian calendar. -/
def days_in_month (y m : Nat) : Nat :=
  if m = 2 then (if is_leap_year y then 29 else 28)
  else if m = 4 ∨ m = 6 ∨ m = 9 ∨ m = 11 then 30
  else 31

/-- A calendar date, standing for the value of `datetime.now()`. -/
structure PyDate where
  year : Nat
  month : Nat
  day : Nat

/-- `datetime.now() - timedelta(days=1)`: the calendar day before. -/
def prev_day (d : PyDate) : PyDate :=
  if d.day > 1 then ⟨d.year, d.month, d.day - 1⟩
  else if d.month > 1 then ⟨d.year, d.month - 1, days_in_month d.year (d.month - 1)⟩
  else ⟨d.year - 1, 12, 31⟩

/-- Zero-pad to two digits (`%m`, `%d`). -/
def pad2 (n : Nat) : String := if n < 10 then "0" ++ toString n else toString n

/-- Zero-pad to four digits (`%Y`). -/
def pad4 (n : Nat) : String :=
  if n < 10 then "000" ++ toString n
  else if n < 100 then "00" ++ toString n
  else if n < 1000 then "0" ++ toString n
  else toString n

/-- `strftime("%Y-%m-%d")`. -/
def fmt_dash (d : PyDate) : String :=
  pad4 d.year ++ "-" ++ pad2 d.month ++ "-" ++ pad2 d.day

/-- `strftime("%Y%m%d")`. -/
def fmt_ymd (d : PyDate) : String :=
  pad4 d.year ++ pad2 d.month ++ pad2 d.day

/-- The mutable state of a `HuggingFacePaperScraper`: its `date_str`
attribute and the listing-page URL built from it. -/
structure HFScraperState where
  date_str : String
  url : String

/-- `HuggingFacePaperScraper.__init__` (paper.py lines 82-97): when no
explicit date string is given, `date_str` is yesterday's date in
`YYYY-MM-DD` form; the listing URL appends `date_str` to the mirror's
papers path. -/
def hf_scraper_init (now : PyDate) (date_str : Option String) : HFScraperState :=
  let ds := match date_str with
    | none => fmt_dash (prev_day now)
    | some s => s
  ⟨ds, HF_MIRROR_URL ++ "/papers/date/" ++ ds⟩

/-- Result of a `_save` call: the updated scraper state, the filename the
data was written to, and the new file state. -/
structure HFSaveResult where
  scraper : HFScraperState
  filename : String
  file : FileState

/-- `HuggingFacePaperScraper._save` (paper.py lines 169-194) with its
date handling made explicit: line 176 rebinds `self.date_str` to the
*current* clock formatted `YYYYMMDD`, and the file written is
`materials/{date_str}.json` for that rebound value — regardless of the
date the scraper was constructed with. -/
def hf_save_full (st : HFScraperState) (save_now : PyDate) (file : FileState)
    (new_data : List JValue) : HFSaveResult :=
  let st2 : HFScraperState := { st with date_str := fmt_ymd save_now }
  ⟨st2, "materials/" ++ st2.date_str ++ ".json", hf_save file new_data⟩

/- ------------------------------------------------------------------ -/
/- main.py — AIReporter._finish_report / run_report                    -/
/- ------------------------------------------------------------------ -/

/-- Python exceptions that can cross the step boundaries modelled here. -/
inductive PyErr where
  | keyError (k : String) : PyErr
  | jsonDecodeError : PyErr
  | fileNotFound : PyErr

/-- The Markdown body written by `_finish_report` (main.py lines
105-127): header, L1 body, each L2 entry, the repo blocks, then the paper
blocks. -/
def build_markdown (tsp : String) (l1 : JValue) (d : Doc) : String :=
  "# Welcome to " ++ tsp ++ " AI Report\n\n"
  ++ asStr l1 ++ "\n\n"
  ++ "## Introduction\n\n"
  ++ String.join ((asArr (docGetD d "L2 Summary" (.jarr []))).map
      (fun content => asStr content ++ "\n\n\n"))
  ++ "## Repo Trendings\n\n"
  ++ String.join ((asArr (docGetD d "gh_trendings" (.jarr []))).map
      (fun content =>
        "### Repo: " ++ ⟨(asStr (getKeyD content "url" (.jstr ""))).toList.drop 19⟩
          ++ "\n\n"
        ++ "url: " ++ asStr (getKeyD content "url" (.jstr "")) ++ "\n\n"
        ++ "language: " ++ asStr (getKeyD content "language" (.jstr "N/A"))
          ++ "\n\n"
        ++ "\n" ++ asStr (getKeyD content "description" (.jstr "")) ++ "\n\n\n"))
  ++ "## Paper Trendings\n\n"
  ++ String.join ((asArr (docGetD d "huggingface_papers" (.jarr []))).map
      (fun content =>
        "### Paper: " ++ asStr (getKeyD content "Title" (.jstr "N/A")) ++ "\n\n"
        ++ "url: " ++ asStr (getKeyD content "PDF_Link" (.jstr "")) ++ "\n\n"
        ++ "\n" ++ asStr (getKeyD content "Summary" (.jstr "")) ++ "\n\n\n"))

/-- Observable outcome of `AIReporter._finish_report` (main.py lines
89-132): the Markdown file content if one was written, the HTML file
content if one was written, and the Python-level result — `.ok b` for a
normal return of `b`, `.error e` for an uncaught exception. -/
structure FinishResult where
  mdWritten : Option String
  htmlWritten : Option String
  result : Except PyErr Bool

/-- `AIReporter._finish_report` (main.py lines 89-132): a missing JSON
file is caught (`return False`); a corrupt one raises `JSONDecodeError`
(only `FileNotFoundError` is caught); the subscription
`report_data["L1 Summary"]` raises `KeyError` *before* the Markdown file
is opened for writing, so nothing is written in that case; otherwise the
Markdown is written in full and `generate_article_html` runs, whose
outcome is the oracle `html_gen` (`.ok h` = it returned, writing `h` if
`some`; `.error e` = it raised, which propagates). -/
def finish_report (file : FileState) (tsp : String)
    (html_gen : Except PyErr (Option String)) : FinishResult :=
  match file with
  | none => ⟨none, none, .ok false⟩
  | some none => ⟨none, none, .error .jsonDecodeError⟩
  | some (some d) =>
    match getKey d "L1 Summary" with
    | none => ⟨none, none, .error (.keyError "L1 Summary")⟩
    | some l1 =>
      let md := build_markdown tsp l1 d
      match html_gen with
      | .error e => ⟨some md, none, .error e⟩
      | .ok h => ⟨some md, h, .ok true⟩

/-- Observable outcome of `AIReporter.run_report` (main.py lines
157-177). -/
structure RunResult where
  file : FileState
  crawled : Bool
  summarized : Bool
  finish : FinishResult
  mailSent : Bool

/-- `AIReporter.run_report` (main.py lines 157-177): if no JSON file
exists for the run's date, write an empty document `{}`, crawl, and
summarize (the crawl and summarize stages are the state transformers
`crawlE` and `sumE`); if a file exists — whatever its content — skip all
of that. Then `_finish_report` runs; `_send_mail` runs only when it
returns `True` (an uncaught exception from it propagates, so mail is not
sent in that case either). -/
def run_report (initial : FileState) (crawlE sumE : FileState → FileState)
    (html_gen : Except PyErr (Option String)) (tsp : String) : RunResult :=
  let step : FileState × Bool × Bool :=
    match initial with
    | some c => (some c, false, false)
    | none => (sumE (crawlE (some (some []))), true, true)
  let fr := finish_report step.1 tsp html_gen
  let mailSent := match fr.result with
    | .ok true => true
    | _ => false
  ⟨step.1, step.2.1, step.2.2, fr, mailSent⟩

/- ------------------------------------------------------------------ -/
/- mail/generate_news_letter.py — the marker splice (lines 62-78)      -/
/- ------------------------------------------------------------------ -/

/-- The literal start marker comment in the template. -/
def START_MARKER : String :=
  "<!-- START: 论文解读块模板 - Python脚本将填充此位置 -->"

/-- The literal end marker comment in the template. -/
def END_MARKER : String := "<!-- END: 论文解读块模板 -->"

/-- The named placeholder used by the fallback substitution. -/
def ARTICLES_PLACEHOLDER : String := "<!-- INSERT_ARTICLES_HERE -->"

/-- Worker for `strFind`: index of the first position where the pattern
starts, if any. -/
def strFindAux (pat : List Char) : List Char → Option Nat
  | [] => if pat.isEmpty then some 0 else none
  | c :: t =>
    if listStartsWith (c :: t) pat then some 0
    else (strFindAux pat t).map (fun n => n + 1)

/-- Python `s.find(pat)`: index of the first occurrence, `-1` if absent. -/
def strFind (s pat : String) : Int :=
  match strFindAux pat.toList s.toList with
  | some n => (n : Int)
  | none => -1

/-- Python `s[:i]` for the non-negative indices produced inside the
marker branch. -/
def pyTake (s : String) (i : Int) : String := ⟨s.toList.take i.toNat⟩

/-- Python `s[i:]` for the non-negative indices produced inside the
marker branch. -/
def pyDrop (s : String) (i : Int) : String := ⟨s.toList.drop i.toNat⟩

/-- The article-insertion step of
`NewsLetterGenerator.generate_article_html` (generate_news_letter.py
lines 62-78), exactly as written: `start_index = find(START_MARKER)`,
`end_index = find(END_MARKER) + len(END_MARKER)` — note the length is
added *before* the `!= -1` check — then either the slice-splice between
the markers or, otherwise, replacement of the named placeholder. -/
def splice_articles (final_html html_insert_content : String) : String :=
  let start_index := strFind final_html START_MARKER
  let end_index := strFind final_html END_MARKER + (END_MARKER.length : Int)
  if start_index ≠ -1 ∧ end_index ≠ -1 then
    pyTake final_html start_index ++ html_insert_content
      ++ pyDrop final_html end_index
  else
    pyReplace final_html ARTICLES_PLACEHOLDER html_insert_content

/- ------------------------------------------------------------------ -/
/- Theorems                                                           -/
/- ------------------------------------------------------------------ -/

theorem getKey_setKey_self (d : Doc) (k : String) (v : JValue) :
    getKey (setKey d k v) k = some v := by
  induction d with
  | nil => simp [setKey, getKey]
  | cons hd t ih =>
    obtain ⟨k2, v2⟩ := hd
    by_cases h : k2 = k
    · simp [setKey, getKey, h]
    · simp [setKey, getKey, h, ih]

theorem getKey_setKey_other (d : Doc) (k k2 : String) (v : JValue)
    (h : k2 ≠ k) : getKey (setKey d k v) k2 = getKey d k2 := by
  induction d with
  | nil => simp [setKey, getKey, Ne.symm h]
  | cons hd t ih =>
    obtain ⟨k3, v3⟩ := hd
    by_cases h2 : k3 = k
    · subst h2
      simp [setKey, getKey, Ne.symm h]
    · by_cases h3 : k3 = k2 <;> simp [setKey, getKey, h2, h3, h, ih]

/-- C2 counterexample: the claim quantifies over every value `v`, but the
paper-list writer `_save` skips the write entirely when handed an empty
list: starting from no file, writing the empty list leaves no file at all,
so the subsequent read has no `huggingface_papers` field (instead of that
field being the empty list, as the claim requires). -/
theorem hf_save_empty_value_cex :
    hf_save none [] = none ∧
    getKey (loadOrEmpty (hf_save none [])) "huggingface_papers" = none := by
  exact ⟨rfl, rfl⟩

/-- C2 (amended): the read-merge-write cycle sets the named section and
leaves every other previously-written field unchanged; this holds for the
GitHub writer for every value, and for the paper writer for every
non-empty value (on an empty value the paper writer skips the write and
leaves the document unchanged). -/
theorem write_section_frame :
    ∀ (file : FileState) (name : String) (v : JValue) (k : String),
      getKey (loadOrEmpty (write_section file name v)) name = some v ∧
      (k ≠ name →
        getKey (loadOrEmpty (write_section file name v)) k
          = getKey (loadOrEmpty file) k) ∧
      (∀ data : List JValue,
        getKey (loadOrEmpty (save_to_json file data)) "gh_trendings"
          = some (.jarr data) ∧
        (k ≠ "gh_trendings" →
          getKey (loadOrEmpty (save_to_json file data)) k
            = getKey (loadOrEmpty file) k)) ∧
      (∀ new_data : List JValue, new_data ≠ [] →
        getKey (loadOrEmpty (hf_save file new_data)) "huggingface_papers"
          = some (.jarr new_data) ∧
        (k ≠ "huggingface_papers" →
          getKey (loadOrEmpty (hf_save file new_data)) k
            = getKey (loadOrEmpty file) k)) := by
  intro file name v k
  refine ⟨?_, ?_, ?_, ?_⟩
  · simp [write_section, loadOrEmpty, getKey_setKey_self]
  · intro hk
    simp [write_section, loadOrEmpty, getKey_setKey_other _ _ _ _ hk]
  · intro data
    refine ⟨?_, ?_⟩
    · simp [save_to_json, write_section, loadOrEmpty, getKey_setKey_self]
    · intro hk
      simp [save_to_json, write_section, loadOrEmpty,
        getKey_setKey_other _ _ _ _ hk]
  · intro new_data hne
    have hne2 : new_data.isEmpty = false := by
      cases new_data with
      | nil => exact absurd rfl hne
      | cons a t => rfl
    refine ⟨?_, ?_⟩
    · simp [hf_save, hne2, write_section, loadOrEmpty, getKey_setKey_self]
    · intro hk
      simp [hf_save, hne2, write_section, loadOrEmpty,
        getKey_setKey_other _ _ _ _ hk]

/-- C2 witness: a concrete run of the amended statement — write the
`gh_trendings` section on top of a document that already has a
`huggingface_papers` section; the new section reads back and the old one
is untouched, and a non-empty paper write behaves likewise. -/
theorem write_section_frame_witness :
    getKey (loadOrEmpty (write_section (some (some [("huggingface_papers",
        JValue.jarr [])])) "gh_trendings" (JValue.jarr []))) "gh_trendings"
      = some (JValue.jarr []) ∧
    getKey (loadOrEmpty (write_section (some (some [("huggingface_papers",
        JValue.jarr [])])) "gh_trendings" (JValue.jarr []))) "huggingface_papers"
      = getKey (loadOrEmpty (some (some [("huggingface_papers",
        JValue.jarr [])]))) "huggingface_papers" ∧
    getKey (loadOrEmpty (hf_save (some (some [("gh_trendings",
        JValue.jarr [])])) [JValue.jstr "p"])) "huggingface_papers"
      = some (JValue.jarr [JValue.jstr "p"]) := by
  have h := write_section_frame (some (some [("huggingface_papers",
    JValue.jarr [])])) "gh_trendings" (JValue.jarr []) "huggingface_papers"
  have h2 := write_section_frame (some (some [("gh_trendings",
    JValue.jarr [])])) "x" (JValue.jstr "y") "huggingface_papers"
  refine ⟨h.1, h.2.1 (by decide), ?_⟩
  exact ((h2.2.2.2 [JValue.jstr "p"] (by simp)).1)

theorem foldl_append_singleton {α β : Type} (f : α → β) (l : List α)
    (acc : List β) :
    l.foldl (fun a x => a ++ [f x]) acc = acc ++ l.map f := by
  induction l generalizing acc with
  | nil => simp
  | cons h t ih => simp [ih]

/-- C1: `generate_full_report` produces exactly one entry per paper plus
one entry per repo, positionally ordered papers-then-repos (in fetch
order), for every completion oracle; and when every completion call fails
each entry still appears, with the fixed sentinel string in place of the
summary after the item's label. -/
theorem generate_full_report_shape (api : String → Option String)
    (papers repos : List JValue) :
    (generate_full_report api papers repos).length
        = papers.length + repos.length
  ∧ generate_full_report api papers repos
      = papers.map (paper_report_entry api) ++ repos.map (repo_report_entry api)
  ∧ generate_full_report (fun _ => none) papers repos
      = papers.map (fun p =>
          pyStrip (asStr (getKeyD p "Title" (JValue.jstr "Untitled")))
            ++ "\n\n" ++ summaryFailed)
        ++ repos.map (fun r =>
          pyStrip (asStr (getKeyD r "url" (JValue.jstr "No URL")))
            ++ "\n\n" ++ summaryFailed) := by
  have hmap : ∀ g : String → Option String,
      generate_full_report g papers repos
        = papers.map (paper_report_entry g) ++ repos.map (repo_report_entry g) := by
    intro g
    simp [generate_full_report, foldl_append_singleton]
  refine ⟨?_, hmap api, ?_⟩
  · rw [hmap api]; simp
  · rw [hmap (fun _ => none)]
    have h1 : paper_report_entry (fun _ => none)
        = fun p => pyStrip (asStr (getKeyD p "Title" (JValue.jstr "Untitled")))
            ++ "\n\n" ++ summaryFailed := by
      funext p; rfl
    have h2 : repo_report_entry (fun _ => none)
        = fun r => pyStrip (asStr (getKeyD r "url" (JValue.jstr "No URL")))
            ++ "\n\n" ++ summaryFailed := by
      funext r; rfl
    rw [h1, h2]

/-- C4 counterexample: reading the document for a date with no file, and
reading one whose file is corrupt, do not return an empty document —
`_load_data` raises `FileNotFoundError` respectively `ValueError` (an
`Except.error`, not `Except.ok []`). -/
theorem load_data_missing_raises_cex :
    load_data none = Except.error LoadError.fileNotFound ∧
    load_data (some none) = Except.error LoadError.valueError := by
  exact ⟨rfl, rfl⟩

/-- C4 (amended): the summarizer's read (`_load_data`) raises
`FileNotFoundError` on a missing file and `ValueError` on a corrupt file,
rather than returning an empty document; those exceptions are caught at
the summarizer's `run` boundary, which leaves the file untouched and does
not crash; only the writers' read-for-merge step treats a missing or
corrupt file as an empty document. -/
theorem load_data_amended :
    load_data none = Except.error LoadError.fileNotFound
  ∧ load_data (some none) = Except.error LoadError.valueError
  ∧ (∀ api apiL1 : String → Option String,
      ai_run api apiL1 none = none ∧ ai_run api apiL1 (some none) = some none)
  ∧ loadOrEmpty none = [] ∧ loadOrEmpty (some none) = [] := by
  exact ⟨rfl, rfl, fun api apiL1 => ⟨rfl, rfl⟩, rfl, rfl⟩

/-- C6: the rollup prompt embeds all L2 entries joined with a blank-line
separator into the fixed template; `generate_L1_report` issues exactly one
completion request — its result depends on the oracle only through its
value at that single joined prompt, regardless of the number of items —
and when that request fails, the stored `L1 Summary` value is the fixed
sentinel string. -/
theorem generate_L1_single_request_and_sentinel (fr : List String)
    (api api2 : String → Option String) (d : Doc) :
    mk_L1_user_prompt (pyJoin "\n\n" fr)
      = L1_USER_PROMPT_PRE ++ String.intercalate "\n\n" fr ++ L1_USER_PROMPT_POST
  ∧ (api (mk_L1_user_prompt (pyJoin "\n\n" fr))
        = api2 (mk_L1_user_prompt (pyJoin "\n\n" fr))
      → generate_L1_report api fr = generate_L1_report api2 fr)
  ∧ getKey (save_L1_summary d (generate_L1_report (fun _ => none) fr))
        "L1 Summary"
      = some (JValue.jstr summaryFailed) := by
  refine ⟨rfl, ?_, ?_⟩
  · intro h
    simp only [generate_L1_report]
    rw [h]
  · exact getKey_setKey_self d _ _

/-- C6 witness: with two concrete L2 entries, two oracles that agree at
the single joined rollup prompt produce the same L1 result, and a failing
rollup call stores the sentinel under `L1 Summary`. -/
theorem generate_L1_witness :
    generate_L1_report (fun _ => some "S1") ["a", "b"]
      = generate_L1_report
          (fun p => if p = mk_L1_user_prompt (pyJoin "\n\n" ["a", "b"])
            then some "S1" else none)
          ["a", "b"]
  ∧ getKey (save_L1_summary []
        (generate_L1_report (fun _ => none) ["a", "b"])) "L1 Summary"
      = some (JValue.jstr summaryFailed) := by
  have h := generate_L1_single_request_and_sentinel ["a", "b"]
    (fun _ => some "S1")
    (fun p => if p = mk_L1_user_prompt (pyJoin "\n\n" ["a", "b"])
      then some "S1" else none) []
  exact ⟨h.2.1 (by simp), h.2.2⟩

/-- C3 (code-bug evidence): whether the 600-second wait timed out has no
effect at all on the resulting document — the `with ThreadPoolExecutor`
block waits for the still-running worker on exit, and that worker's
`gh_scraper.run` performs its own save when its fetch eventually
succeeds. Concretely, starting from the empty document written by
`run_report`, a paper fetch returning one paper followed by a repo fetch
that times out but eventually succeeds with one repo leaves the document
with a *populated* `gh_trendings` section (and the paper section intact),
not an absent/empty one. -/
theorem gh_timeout_not_skipped :
    (∀ (file : FileState) (pf rf : Option (List JValue)),
      crawling file pf rf true = crawling file pf rf false)
  ∧ getKey (loadOrEmpty (crawling (some (some [])) (some [samplePaper])
      (some [sampleRepo]) true)) "gh_trendings"
      = some (JValue.jarr [sampleRepo])
  ∧ getKey (loadOrEmpty (crawling (some (some [])) (some [samplePaper])
      (some [sampleRepo]) true)) "huggingface_papers"
      = some (JValue.jarr [samplePaper]) := by
  exact ⟨fun file pf rf => rfl, rfl, rfl⟩

/-- C5: `_parse_papers` keeps exactly one output record per well-formed
container — a metadata failure never drops an item and never affects any
other item: the record at position `i` is a function of container `i`
alone; on a failed metadata lookup its `Summary` and `PDF_Link` are the
sentinel `"N/A"` while the title/link fields are still populated, and on
a successful lookup all fields are populated from the fetched data. -/
theorem parse_papers_metadata_isolation
    (details : String → Option (String × String)) (cs : List HfContainer) :
    (parse_papers details cs).length = cs.length
  ∧ (∀ (i : Nat) (c : HfContainer), cs.get? i = some c →
      (parse_papers details cs).get? i = some (parse_container details c))
  ∧ (∀ c : HfContainer, details (container_arxiv_id c) = none →
      parse_container details c = JValue.jobj [
        ("Title", .jstr (stripNL c.title)),
        ("HF_Link", .jstr (HF_MIRROR_URL ++ c.href)),
        ("Arxiv_Link", .jstr (to_arxiv (HF_MIRROR_URL ++ c.href))),
        ("Summary", .jstr "N/A"),
        ("PDF_Link", .jstr "N/A")])
  ∧ (∀ (c : HfContainer) (s p : String),
      details (container_arxiv_id c) = some (s, p) →
      parse_container details c = JValue.jobj [
        ("Title", .jstr (stripNL c.title)),
        ("HF_Link", .jstr (HF_MIRROR_URL ++ c.href)),
        ("Arxiv_Link", .jstr (to_arxiv (HF_MIRROR_URL ++ c.href))),
        ("Summary", .jstr (stripNL s)),
        ("PDF_Link", .jstr p)]) := by
  refine ⟨by simp [parse_papers], ?_, ?_, ?_⟩
  · intro i c h
    simp only [parse_papers]
    rw [List.get?_map, h]
    rfl
  · intro c h
    simp only [parse_container, get_paper_details, container_arxiv_id] at *
    rw [h]
    rfl
  · intro c s p h
    simp only [parse_container, get_paper_details, container_arxiv_id] at *
    rw [h]

/-- C5 witness: three listed papers whose metadata oracle fails exactly
on the second — the output has length 3, entry 1 carries the `N/A`
sentinels with its title and links intact, and entry 0 is fully
populated. -/
theorem parse_papers_metadata_isolation_witness :
    (parse_papers
      (fun id => if id = "2402.00002" then none
        else some ("abs " ++ id, "pdf-" ++ id))
      [⟨"A", "/papers/2402.00001"⟩, ⟨"B", "/papers/2402.00002"⟩,
       ⟨"C", "/papers/2402.00003"⟩]).length = 3
  ∧ (parse_papers
      (fun id => if id = "2402.00002" then none
        else some ("abs " ++ id, "pdf-" ++ id))
      [⟨"A", "/papers/2402.00001"⟩, ⟨"B", "/papers/2402.00002"⟩,
       ⟨"C", "/papers/2402.00003"⟩]).get? 1
      = some (JValue.jobj [
          ("Title", .jstr "B"),
          ("HF_Link", .jstr "https://hf-mirror.com/papers/2402.00002"),
          ("Arxiv_Link", .jstr "https://arxiv.org/abs/2402.00002"),
          ("Summary", .jstr "N/A"),
          ("PDF_Link", .jstr "N/A")])
  ∧ (parse_papers
      (fun id => if id = "2402.00002" then none
        else some ("abs " ++ id, "pdf-" ++ id))
      [⟨"A", "/papers/2402.00001"⟩, ⟨"B", "/papers/2402.00002"⟩,
       ⟨"C", "/papers/2402.00003"⟩]).get? 0
      = some (JValue.jobj [
          ("Title", .jstr "A"),
          ("HF_Link", .jstr "https://hf-mirror.com/papers/2402.00001"),
          ("Arxiv_Link", .jstr "https://arxiv.org/abs/2402.00001"),
          ("Summary", .jstr "abs 2402.00001"),
          ("PDF_Link", .jstr "pdf-2402.00001")]) := by
  have H := parse_papers_metadata_isolation
    (fun id => if id = "2402.00002" then none
      else some ("abs " ++ id, "pdf-" ++ id))
    [⟨"A", "/papers/2402.00001"⟩, ⟨"B", "/papers/2402.00002"⟩,
     ⟨"C", "/papers/2402.00003"⟩]
  refine ⟨H.1, ?_, ?_⟩
  · rw [H.2.1 1 ⟨"B", "/papers/2402.00002"⟩ rfl,
      H.2.2.1 ⟨"B", "/papers/2402.00002"⟩ (by decide)]
    rfl
  · rw [H.2.1 0 ⟨"A", "/papers/2402.00001"⟩ rfl,
      H.2.2.2 ⟨"A", "/papers/2402.00001"⟩ "abs 2402.00001" "pdf-2402.00001"
        (by decide)]
    rfl

/-- C7: rendering a document that lacks the `L1 Summary` key fails with
`KeyError` before the Markdown file is even opened — no partial Markdown
or HTML output is written — and since the exception propagates out of
`_finish_report`, `run_report` never reaches the mail-sending step. -/
theorem render_missing_L1 (d : Doc) (tsp : String)
    (html_gen : Except PyErr (Option String))
    (crawlE sumE : FileState → FileState)
    (h : getKey d "L1 Summary" = none) :
    (finish_report (some (some d)) tsp html_gen).mdWritten = none
  ∧ (finish_report (some (some d)) tsp html_gen).htmlWritten = none
  ∧ (finish_report (some (some d)) tsp html_gen).result
      = Except.error (PyErr.keyError "L1 Summary")
  ∧ (run_report (some (some d)) crawlE sumE html_gen tsp).mailSent = false := by
  refine ⟨?_, ?_, ?_, ?_⟩ <;> simp [finish_report, run_report, h]

/-- C7 witness: a concrete document with a field but no `L1 Summary` —
render raises the precondition error, writes nothing, and mail is not
sent. -/
theorem render_missing_L1_witness :
    getKey ([("x", JValue.jstr "y")] : Doc) "L1 Summary" = none
  ∧ (finish_report (some (some [("x", JValue.jstr "y")])) "20251014"
      (Except.ok none)).mdWritten = none
  ∧ (run_report (some (some [("x", JValue.jstr "y")])) id id
      (Except.ok none) "20251014").mailSent = false := by
  have H := render_missing_L1 [("x", JValue.jstr "y")] "20251014"
    (Except.ok none) id id rfl
  exact ⟨rfl, H.1, H.2.2.2⟩

/-- C8 (code-bug evidence): in a template containing the start marker and
the named placeholder but *not* the end marker, `end_index` is
`-1 + len(END_MARKER) = 20`, which is not `-1`, so the marker branch is
taken anyway: the output is spliced at a bogus position and still
contains the untouched placeholder — the fallback substitution (which
would have produced the last conjunct's string) never happens. When the
start marker is absent the fallback does run. -/
theorem marker_fallback_bug :
    strFind ("A" ++ START_MARKER ++ "B" ++ ARTICLES_PLACEHOLDER ++ "C")
      START_MARKER = 1
  ∧ strFind ("A" ++ START_MARKER ++ "B" ++ ARTICLES_PLACEHOLDER ++ "C")
      END_MARKER = -1
  ∧ splice_articles ("A" ++ START_MARKER ++ "B" ++ ARTICLES_PLACEHOLDER ++ "C")
      "X" = "AX - Python脚本将填充此位置 -->B<!-- INSERT_ARTICLES_HERE -->C"
  ∧ (splice_articles ("A" ++ START_MARKER ++ "B" ++ ARTICLES_PLACEHOLDER ++ "C")
      "X"
      == pyReplace ("A" ++ START_MARKER ++ "B" ++ ARTICLES_PLACEHOLDER ++ "C")
          ARTICLES_PLACEHOLDER "X") = false
  ∧ pyReplace ("A" ++ START_MARKER ++ "B" ++ ARTICLES_PLACEHOLDER ++ "C")
      ARTICLES_PLACEHOLDER "X" = "A" ++ START_MARKER ++ "BXC"
  ∧ splice_articles ("A" ++ ARTICLES_PLACEHOLDER ++ "C") "X" = "AXC" := by
  refine ⟨rfl, rfl, rfl, by decide, rfl, rfl⟩

/-- C9: when a JSON file for the run's date already exists, `run_report`
performs no crawling and no summarization and leaves the stored document
unchanged, and mail is sent only if the render step returned `True`;
when no file exists, an empty document is written first and both the
crawl and the summarize stages run on it. -/
theorem run_report_skip_when_exists (c : Option Doc)
    (crawlE sumE : FileState → FileState)
    (html_gen : Except PyErr (Option String)) (tsp : String) :
    (run_report (some c) crawlE sumE html_gen tsp).crawled = false
  ∧ (run_report (some c) crawlE sumE html_gen tsp).summarized = false
  ∧ (run_report (some c) crawlE sumE html_gen tsp).file = some c
  ∧ ((run_report (some c) crawlE sumE html_gen tsp).mailSent = true
      → (finish_report (some c) tsp html_gen).result = Except.ok true)
  ∧ (run_report none crawlE sumE html_gen tsp).crawled = true
  ∧ (run_report none crawlE sumE html_gen tsp).summarized = true
  ∧ (run_report none crawlE sumE html_gen tsp).file
      = sumE (crawlE (some (some []))) := by
  refine ⟨rfl, rfl, rfl, ?_, rfl, rfl, rfl⟩
  intro h
  dsimp only [run_report] at h
  cases hres : (finish_report (some c) tsp html_gen).result with
  | error e => rw [hres] at h; simp at h
  | ok b =>
    cases b with
    | false => rw [hres] at h; simp at h
    | true => rfl

/-- C9 witness: with an existing document that has an `L1 Summary`, the
mail step runs only because the render step succeeded. -/
theorem run_report_skip_when_exists_witness :
    (finish_report (some (some [("L1 Summary", JValue.jstr "x")])) "t"
      (Except.ok none)).result = Except.ok true := by
  exact (run_report_skip_when_exists (some [("L1 Summary", JValue.jstr "x")])
    id id (Except.ok none) "t").2.2.2.1 rfl

/-- C10: a paper scraper constructed without an explicit date builds its
listing URL for the calendar day before the construction-time clock
(formatted `YYYY-MM-DD`), while `_save` re-derives `date_str` from the
save-time clock (formatted `YYYYMMDD`) and writes to that file — the
storage key is the current day's, independent of the listing date, also
when an explicit date string was supplied at construction. -/
theorem hf_scraper_date_handling (now save_now : PyDate) (ds : String)
    (file : FileState) (nd : List JValue) :
    (hf_scraper_init now none).url
      = "https://hf-mirror.com/papers/date/" ++ fmt_dash (prev_day now)
  ∧ (hf_scraper_init now none).date_str = fmt_dash (prev_day now)
  ∧ (hf_save_full (hf_scraper_init now none) save_now file nd).filename
      = "materials/" ++ fmt_ymd save_now ++ ".json"
  ∧ (hf_save_full (hf_scraper_init now (some ds)) save_now file nd).filename
      = "materials/" ++ fmt_ymd save_now ++ ".json"
  ∧ (hf_save_full (hf_scraper_init now (some ds)) save_now file nd).scraper.date_str
      = fmt_ymd save_now := by
  exact ⟨rfl, rfl, rfl, rfl, rfl⟩
